import Mathlib

/-!
Verification development for the COLREG quiz application (src/index.tsx).

The application is a single React component `App` holding session state in
hooks: `step` ("profile" | "loading" | "quiz" | "results"), `profile`,
`questions`, `currentQuestionIndex`, `answers`, `error`, `timeLeft`.
We embed that state as the structure `AppState` and each handler as a pure
state transformer, and model the reachable sessions with a step relation
`AppStep` whose events are exactly those the rendered UI and the effects
offer in each step.
-/

namespace ColregQuiz

/-- The four values of the `step` hook: "profile" (Intake), "loading"
(Generating), "quiz" (InProgress), "results" (Completed). -/
inductive Step where
  | profile
  | loading
  | quiz
  | results
deriving DecidableEq, Repr

/-- `interface UserProfile` of src/index.tsx. -/
structure UserProfile where
  name : String
  rank : String
  vessel : String
deriving DecidableEq, Repr

/-- `interface QuizQuestion` of src/index.tsx.  `correctAnswerIndex` is an
arbitrary JSON integer: the generation handler installs it unvalidated. -/
structure QuizQuestion where
  question : String
  options : List String
  correctAnswerIndex : Int
  explanation : String
deriving DecidableEq, Repr

instance : Inhabited QuizQuestion := ⟨⟨"", [], 0, ""⟩⟩

/-- The whole hook state of the `App` component. -/
structure AppState where
  step : Step
  profile : UserProfile
  questions : List QuizQuestion
  currentQuestionIndex : Nat
  answers : List Nat
  error : Option String
  timeLeft : Nat
deriving DecidableEq, Repr

/-- The initial hook values (src/index.tsx lines 35-41). -/
def initState : AppState :=
  { step := .profile
    profile := ⟨"", "", ""⟩
    questions := []
    currentQuestionIndex := 0
    answers := []
    error := none
    timeLeft := 600 }

/-- `handleProfileSubmit` (lines 61-70): a falsy (empty) field sets the
validation error and returns; otherwise it clears the error and moves to
"loading" (the generation call's outcome arrives as a later event). -/
def handleProfileSubmit (s : AppState) : AppState :=
  if s.profile.name = "" ∨ s.profile.rank = "" ∨ s.profile.vessel = "" then
    { s with error := some "Please fill in all fields." }
  else
    { s with error := none, step := .loading }

/-- The success branch of `generateQuiz` (lines 107-111): whatever array the
response text parsed to is installed as the question set, the timer is reset
to 600 and the step becomes "quiz".  No count or shape validation occurs. -/
def applyGenSuccess (s : AppState) (qs : List QuizQuestion) : AppState :=
  { s with questions := qs, timeLeft := 600, step := .quiz }

/-- The catch branch of `generateQuiz` (lines 112-119): missing response text
or a JSON parse failure sets a user-visible error and returns to "profile". -/
def applyGenFailure (s : AppState) : AppState :=
  { s with
    error := some "Failed to generate quiz. Please try again or check your connection."
    step := .profile }

/-- `handleAnswer` (lines 122-131): append the selected option index to
`answers`; advance `currentQuestionIndex` while it is below the last index,
otherwise move to "results".  (In JS, `0 < questions.length - 1` is false for
an empty list, matching truncated Nat subtraction here.) -/
def handleAnswer (s : AppState) (optionIndex : Nat) : AppState :=
  if s.currentQuestionIndex < s.questions.length - 1 then
    { s with answers := s.answers ++ [optionIndex]
             currentQuestionIndex := s.currentQuestionIndex + 1 }
  else
    { s with answers := s.answers ++ [optionIndex], step := .results }

/-- The timer effect (lines 48-59): while in "quiz" with time left it
decrements `timeLeft` by one per interval firing; in "quiz" at zero it moves
to "results"; in every other step it does nothing. -/
def timerEffect (s : AppState) : AppState :=
  if s.step = .quiz ∧ 0 < s.timeLeft then
    { s with timeLeft := s.timeLeft - 1 }
  else if s.step = .quiz ∧ s.timeLeft = 0 then
    { s with step := .results }
  else
    s

/-- `restartQuiz` (lines 275-282): resets step, questions, answers,
currentQuestionIndex, error and timeLeft.  It does not touch `profile`. -/
def restartQuiz (s : AppState) : AppState :=
  { s with
    step := .profile
    questions := []
    answers := []
    currentQuestionIndex := 0
    error := none
    timeLeft := 600 }

/-- The answer-exists-and-is-correct test shared by `calculateScore`
(line 137) and `generatePDF` (line 225): `answers[i] !== undefined &&
answers[i] === q.correctAnswerIndex`. -/
def isHit (q : QuizQuestion) (a : Option Nat) : Bool :=
  match a with
  | some v => decide ((v : Int) = q.correctAnswerIndex)
  | none => false

/-- The `questions.forEach((q, i) => ...)` accumulation of `calculateScore`
(lines 133-140), indexed from `i`. -/
def scoreAux (answers : List Nat) : Nat → List QuizQuestion → Nat
  | _, [] => 0
  | i, q :: qs => (if isHit q (answers.get? i) then 1 else 0) + scoreAux answers (i + 1) qs

/-- `calculateScore` (lines 133-140). -/
def calculateScore (questions : List QuizQuestion) (answers : List Nat) : Nat :=
  scoreAux answers 0 questions

/-- `const total = questions.length` (line 152). -/
def totalCount (questions : List QuizQuestion) : Nat :=
  questions.length

/-- `const passed = score >= 7` in the results branch of `App` (line 426). -/
def resultsPassed (questions : List QuizQuestion) (answers : List Nat) : Bool :=
  7 ≤ calculateScore questions answers

/-- `const passed = score >= 7` in `generatePDF` (line 205). -/
def pdfPassed (questions : List QuizQuestion) (answers : List Nat) : Bool :=
  7 ≤ calculateScore questions answers

/-- The PASS/FAIL verdict line of the report (line 208). -/
def pdfResultLine (questions : List QuizQuestion) (answers : List Nat) : String :=
  if pdfPassed questions answers then "RESULT: PASS" else "RESULT: FAIL"

/-- The events the running application can fire, each guarded exactly by the
step in which the UI or effect offering it is live: profile edits and
submission in "profile", the generation callback in "loading", answer buttons
in "quiz" (rendered only when the question list is nonempty), the timer
effect always (it is inert outside "quiz"), and the restart button in
"results". -/
inductive AppStep : AppState → AppState → Prop where
  | editProfile (s : AppState) (p : UserProfile) :
      s.step = .profile → AppStep s { s with profile := p }
  | submitProfile (s : AppState) :
      s.step = .profile → AppStep s (handleProfileSubmit s)
  | genSuccess (s : AppState) (qs : List QuizQuestion) :
      s.step = .loading → AppStep s (applyGenSuccess s qs)
  | genFailure (s : AppState) :
      s.step = .loading → AppStep s (applyGenFailure s)
  | answer (s : AppState) (o : Nat) :
      s.step = .quiz → s.questions ≠ [] → AppStep s (handleAnswer s o)
  | timer (s : AppState) :
      AppStep s (timerEffect s)
  | restart (s : AppState) :
      s.step = .results → AppStep s (restartQuiz s)

/-- Sessions reachable from the initial hook state. -/
inductive Reachable : AppState → Prop where
  | init : Reachable initState
  | next {s t : AppState} : Reachable s → AppStep s t → Reachable t

/-- The session invariant: index and answer bounds, the quiz-phase sync of
answer count and current index, and emptiness in the intake/generating
phases. -/
def SessionInv (s : AppState) : Prop :=
  s.currentQuestionIndex ≤ s.questions.length ∧
  s.answers.length ≤ s.questions.length ∧
  (s.step = .quiz →
    s.answers.length = s.currentQuestionIndex ∧
    (s.questions ≠ [] → s.currentQuestionIndex < s.questions.length)) ∧
  ((s.step = .profile ∨ s.step = .loading) →
    s.answers = [] ∧ s.currentQuestionIndex = 0 ∧ s.questions = [])

theorem sessionInv_init : SessionInv initState := by
  simp [SessionInv, initState]

theorem sessionInv_preserved {s t : AppState} (hInv : SessionInv s) (h : AppStep s t) :
    SessionInv t := by
  obtain ⟨h1, h2, h3, h4⟩ := hInv
  cases h with
  | editProfile p hs =>
      exact ⟨h1, h2, fun hq => by simp [hs] at hq, fun _ => h4 (Or.inl hs)⟩
  | submitProfile hs =>
      unfold handleProfileSubmit
      split
      · exact ⟨h1, h2, fun hq => by simp [hs] at hq, fun _ => h4 (Or.inl hs)⟩
      · exact ⟨h1, h2, fun hq => by simp at hq, fun _ => h4 (Or.inl hs)⟩
  | genSuccess qs hs =>
      obtain ⟨ha, hc, hq⟩ := h4 (Or.inr hs)
      refine ⟨by simp [applyGenSuccess, hc], by simp [applyGenSuccess, ha], ?_, ?_⟩
      · intro _
        constructor
        · simp [applyGenSuccess, ha, hc]
        · intro hne
          simp only [applyGenSuccess] at hne ⊢
          simp only [hc]
          exact List.length_pos.mpr hne
      · intro hcon
        simp [applyGenSuccess] at hcon
  | genFailure hs =>
      obtain ⟨ha, hc, hq⟩ := h4 (Or.inr hs)
      exact ⟨h1, h2, fun hcon => by simp [applyGenFailure] at hcon,
        fun _ => ⟨ha, hc, hq⟩⟩
  | answer o hs hne =>
      obtain ⟨hsync, hlt⟩ := h3 hs
      have hcqi : s.currentQuestionIndex < s.questions.length := hlt hne
      unfold handleAnswer
      split
      · rename_i hbr
        refine ⟨by dsimp only; omega, ?_, ?_, ?_⟩
        · dsimp only
          simp only [List.length_append, List.length_cons, List.length_nil]
          omega
        · intro _
          constructor
          · dsimp only
            simp only [List.length_append, List.length_cons, List.length_nil]
            omega
          · intro _
            dsimp only
            omega
        · intro hcon
          simp [hs] at hcon
      · rename_i hbr
        refine ⟨by dsimp only; omega, ?_, ?_, ?_⟩
        · dsimp only
          simp only [List.length_append, List.length_cons, List.length_nil]
          omega
        · intro hcon
          simp at hcon
        · intro hcon
          rcases hcon with hcon | hcon <;> simp at hcon
  | timer =>
      unfold timerEffect
      split
      · rename_i hbr
        exact ⟨h1, h2, fun _ => h3 hbr.1, fun hcon => by
          rcases hcon with hcon | hcon <;> simp [hbr.1] at hcon⟩
      · split
        · rename_i hbr
          exact ⟨h1, h2, fun hcon => by simp at hcon, fun hcon => by
            rcases hcon with hcon | hcon <;> simp at hcon⟩
        · exact ⟨h1, h2, h3, h4⟩
  | restart hs =>
      refine ⟨?_, ?_, ?_, ?_⟩
      · simp [restartQuiz]
      · simp [restartQuiz]
      · intro hcon
        simp [restartQuiz] at hcon
      · intro _
        simp [restartQuiz]

theorem sessionInv_reachable {s : AppState} (h : Reachable s) : SessionInv s := by
  induction h with
  | init => exact sessionInv_init
  | next _ hstep ih => exact sessionInv_preserved ih hstep

/-! ### Scoring: counting characterisation -/

/-- Specification-side predicate: at index `i` an answer exists and equals
the question's `correctAnswerIndex`. -/
def hitAt (questions : List QuizQuestion) (answers : List Nat) (i : Nat) : Bool :=
  match questions.get? i, answers.get? i with
  | some q, some a => decide ((a : Int) = q.correctAnswerIndex)
  | _, _ => false

/-- `hitAt` with the answer lookup shifted by `k`, matching the accumulator
index of `scoreAux`. -/
def hitFrom (questions : List QuizQuestion) (answers : List Nat) (k i : Nat) : Bool :=
  match questions.get? i, answers.get? (k + i) with
  | some q, some a => decide ((a : Int) = q.correctAnswerIndex)
  | _, _ => false

theorem hitFrom_zero (qs : List QuizQuestion) (ans : List Nat) (i : Nat) :
    hitFrom qs ans 0 i = hitAt qs ans i := by
  unfold hitFrom hitAt
  rw [Nat.zero_add]

theorem hitFrom_cons_zero (q : QuizQuestion) (qs : List QuizQuestion) (ans : List Nat)
    (k : Nat) : hitFrom (q :: qs) ans k 0 = isHit q (ans.get? k) := by
  unfold hitFrom isHit
  rw [Nat.add_zero]
  cases ans.get? k <;> rfl

theorem hitFrom_cons_succ (q : QuizQuestion) (qs : List QuizQuestion) (ans : List Nat)
    (k i : Nat) : hitFrom (q :: qs) ans k (i + 1) = hitFrom qs ans (k + 1) i := by
  unfold hitFrom
  have h : k + (i + 1) = (k + 1) + i := by omega
  rw [h]
  rfl

theorem scoreAux_eq_countP (ans : List Nat) (qs : List QuizQuestion) :
    ∀ k : Nat, scoreAux ans k qs = (List.range qs.length).countP (hitFrom qs ans k) := by
  induction qs with
  | nil => intro k; simp [scoreAux]
  | cons q qs ih =>
      intro k
      have hfun : (hitFrom (q :: qs) ans k) ∘ Nat.succ = hitFrom qs ans (k + 1) :=
        funext fun i => hitFrom_cons_succ q qs ans k i
      simp only [scoreAux, List.length_cons, List.range_succ_eq_map, List.countP_cons,
        List.countP_map, hfun, hitFrom_cons_zero, ih (k + 1)]
      omega

theorem calculateScore_eq_countP (qs : List QuizQuestion) (ans : List Nat) :
    calculateScore qs ans = (List.range qs.length).countP (hitAt qs ans) := by
  unfold calculateScore
  rw [scoreAux_eq_countP]
  have hfun : hitFrom qs ans 0 = hitAt qs ans := funext fun i => hitFrom_zero qs ans i
  rw [hfun]

theorem calculateScore_le_length (qs : List QuizQuestion) (ans : List Nat) :
    calculateScore qs ans ≤ qs.length := by
  rw [calculateScore_eq_countP]
  calc (List.range qs.length).countP (hitAt qs ans)
      ≤ (List.range qs.length).length := List.countP_le_length _
    _ = qs.length := List.length_range qs.length

theorem hitAt_of_no_answer (qs : List QuizQuestion) (ans : List Nat) (i : Nat)
    (h : ans.length ≤ i) : hitAt qs ans i = false := by
  unfold hitAt
  rw [List.get?_eq_none.mpr h]
  cases qs.get? i <;> rfl

/-! ### Concrete sessions used as evaluation inputs -/

/-- A well-formed sample question. -/
def demoQuestion : QuizQuestion :=
  ⟨"A vessel is crossing from your starboard side. What action do you take?",
   ["Hold course and speed", "Give way", "Sound five short blasts", "Alter course to port"],
   1, "Rule 15: the vessel which has the other on her own starboard side shall keep out of the way."⟩

/-- A fixed set of 10 sample questions. -/
def demoQs : List QuizQuestion := List.replicate 10 demoQuestion

/-- Ten answers of which exactly 6 are correct for `demoQs`. -/
def demoAns6 : List Nat := [1, 1, 1, 1, 1, 1, 0, 0, 0, 0]

/-- Ten answers of which exactly 7 are correct for `demoQs`. -/
def demoAns7 : List Nat := [1, 1, 1, 1, 1, 1, 1, 0, 0, 0]

/-- An Intake session whose profile fields are all filled. -/
def intakeFilled : AppState :=
  { step := .profile
    profile := ⟨"John Doe", "Chief Officer", "MV Pacific Star"⟩
    questions := []
    currentQuestionIndex := 0
    answers := []
    error := none
    timeLeft := 600 }

/-- An InProgress session at the first of the 10 sample questions. -/
def quizStart : AppState :=
  { step := .quiz
    profile := ⟨"John Doe", "Chief Officer", "MV Pacific Star"⟩
    questions := demoQs
    currentQuestionIndex := 0
    answers := []
    error := none
    timeLeft := 600 }

/-- An InProgress session at the last of the 10 sample questions. -/
def quizLast : AppState :=
  { quizStart with currentQuestionIndex := 9, answers := [1, 1, 1, 1, 1, 1, 0, 0, 0] }

/-- An InProgress session out of time with 3 of 10 questions answered. -/
def quizExpired : AppState :=
  { quizStart with currentQuestionIndex := 3, answers := [1, 1, 1], timeLeft := 0 }

/-- A Completed session holding a nonempty profile. -/
def completedSession : AppState :=
  { step := .results
    profile := ⟨"John Doe", "Chief Officer", "MV Pacific Star"⟩
    questions := [demoQuestion]
    currentQuestionIndex := 0
    answers := [1]
    error := none
    timeLeft := 42 }

/-! ### Claims -/

/-- C1 counterexample: `restartQuiz` does not clear the profile.  Restarting
a Completed session holding a nonempty profile yields an Intake session whose
profile is still that nonempty profile, not the empty one. -/
theorem restart_keeps_profile_cex :
    (restartQuiz completedSession).step = Step.profile ∧
    (restartQuiz completedSession).profile =
      ⟨"John Doe", "Chief Officer", "MV Pacific Star"⟩ ∧
    (restartQuiz completedSession).profile ≠ ⟨"", "", ""⟩ := by
  decide

/-- C1 (amended): the restart operation, invoked from any state, returns the
state to Intake, empties questions and answers, sets currentQuestionIndex to
0 and remainingSeconds to 600 and clears the error, but leaves the profile
unchanged rather than clearing it. -/
theorem restart_resets_all_but_profile (s : AppState) :
    restartQuiz s =
      { step := .profile
        profile := s.profile
        questions := []
        currentQuestionIndex := 0
        answers := []
        error := none
        timeLeft := 600 } := rfl

/-- C4: `calculateScore` returns the number of indices `i < questions.length`
at which an answer exists and equals that question's `correctAnswerIndex`;
the score never exceeds `totalCount = questions.length`; and an index with no
recorded answer never counts as a hit. -/
theorem calculateScore_spec (qs : List QuizQuestion) (ans : List Nat) :
    calculateScore qs ans = (List.range qs.length).countP (hitAt qs ans) ∧
    calculateScore qs ans ≤ totalCount qs ∧
    (∀ i : Nat, ans.length ≤ i → hitAt qs ans i = false) := by
  refine ⟨calculateScore_eq_countP qs ans, calculateScore_le_length qs ans, ?_⟩
  intro i hi
  exact hitAt_of_no_answer qs ans i hi

/-- Witness for C4 at a concrete question set and a concrete partial answer
record. -/
theorem calculateScore_spec_witness :
    calculateScore demoQs demoAns6 =
      (List.range demoQs.length).countP (hitAt demoQs demoAns6) ∧
    calculateScore demoQs demoAns6 ≤ totalCount demoQs ∧
    hitAt demoQs demoAns6 10 = false :=
  ⟨(calculateScore_spec demoQs demoAns6).1,
   (calculateScore_spec demoQs demoAns6).2.1,
   (calculateScore_spec demoQs demoAns6).2.2 10 (by decide)⟩

/-- C5: both pass verdict sites (the results view and the report) compare the
score against the fixed constant 7, independently of `totalCount`; at the
boundary, a score of 6 fails and a score of 7 passes, in the results flag and
in the report's PASS/FAIL line alike. -/
theorem pass_threshold_spec (qs : List QuizQuestion) (ans : List Nat) :
    (resultsPassed qs ans = true ↔ 7 ≤ calculateScore qs ans) ∧
    (pdfPassed qs ans = true ↔ 7 ≤ calculateScore qs ans) ∧
    (pdfResultLine qs ans = "RESULT: PASS" ↔ 7 ≤ calculateScore qs ans) ∧
    (calculateScore qs ans = 6 →
      resultsPassed qs ans = false ∧ pdfResultLine qs ans = "RESULT: FAIL") ∧
    (calculateScore qs ans = 7 →
      resultsPassed qs ans = true ∧ pdfResultLine qs ans = "RESULT: PASS") := by
  have h1 : resultsPassed qs ans = true ↔ 7 ≤ calculateScore qs ans := by
    simp [resultsPassed]
  have h2 : pdfPassed qs ans = true ↔ 7 ≤ calculateScore qs ans := by
    simp [pdfPassed]
  have h3 : pdfResultLine qs ans = "RESULT: PASS" ↔ 7 ≤ calculateScore qs ans := by
    unfold pdfResultLine
    by_cases h : pdfPassed qs ans = true
    · rw [if_pos h]
      simp [h2.mp h]
    · rw [if_neg h]
      have hlt : ¬ 7 ≤ calculateScore qs ans := fun hc => h (h2.mpr hc)
      constructor
      · intro hcon; exact absurd hcon (by decide)
      · intro hcon; exact absurd hcon hlt
  refine ⟨h1, h2, h3, ?_, ?_⟩
  · intro h6
    have hlt : ¬ 7 ≤ calculateScore qs ans := by omega
    constructor
    · cases hb : resultsPassed qs ans
      · rfl
      · exact absurd (h1.mp hb) hlt
    · unfold pdfResultLine
      split
      · rename_i hcond; exact absurd (h2.mp hcond) hlt
      · rfl
  · intro h7
    exact ⟨h1.mpr (by omega), h3.mpr (by omega)⟩

/-- Witness for C5 at the 6-correct and 7-correct boundary inputs. -/
theorem pass_threshold_spec_witness :
    (resultsPassed demoQs demoAns6 = false ∧ pdfResultLine demoQs demoAns6 = "RESULT: FAIL") ∧
    (resultsPassed demoQs demoAns7 = true ∧ pdfResultLine demoQs demoAns7 = "RESULT: PASS") :=
  ⟨(pass_threshold_spec demoQs demoAns6).2.2.2.1 (by decide),
   (pass_threshold_spec demoQs demoAns7).2.2.2.2 (by decide)⟩

/-- Answering every question in sequence completes the quiz: from an
InProgress state whose answer record is synchronised with the current index,
submitting one answer per remaining question ends in "results" with a full
answer record, with questions and timer untouched. -/
theorem foldl_handleAnswer_completes :
    ∀ (opts : List Nat) (s : AppState), s.step = .quiz →
      s.answers.length = s.currentQuestionIndex →
      s.currentQuestionIndex + opts.length = s.questions.length →
      opts ≠ [] →
      (opts.foldl handleAnswer s).step = .results ∧
      (opts.foldl handleAnswer s).answers.length = s.questions.length ∧
      (opts.foldl handleAnswer s).timeLeft = s.timeLeft ∧
      (opts.foldl handleAnswer s).questions = s.questions := by
  intro opts
  induction opts with
  | nil => intro s _ _ _ hne; exact absurd rfl hne
  | cons o opts ih =>
      intro s hs hsync hlen hne
      by_cases hopts : opts = []
      · subst hopts
        simp only [List.length_cons, List.length_nil] at hlen
        have hbr : ¬ s.currentQuestionIndex < s.questions.length - 1 := by omega
        simp only [List.foldl]
        unfold handleAnswer
        rw [if_neg hbr]
        refine ⟨rfl, ?_, rfl, rfl⟩
        dsimp only
        simp only [List.length_append, List.length_cons, List.length_nil]
        omega
      · have hlen' : 0 < opts.length := List.length_pos.mpr hopts
        have hbr : s.currentQuestionIndex < s.questions.length - 1 := by
          simp only [List.length_cons] at hlen; omega
        have hstep : handleAnswer s o =
            { s with answers := s.answers ++ [o]
                     currentQuestionIndex := s.currentQuestionIndex + 1 } := by
          unfold handleAnswer; rw [if_pos hbr]
        simp only [List.foldl, hstep]
        have hrec := ih
          { s with answers := s.answers ++ [o]
                   currentQuestionIndex := s.currentQuestionIndex + 1 }
          hs
          (by dsimp only
              simp only [List.length_append, List.length_cons, List.length_nil]
              omega)
          (by dsimp only
              simp only [List.length_cons] at hlen
              omega)
          hopts
        exact hrec

/-- C6: answering below the last index appends the selection and advances the
index by one, staying InProgress; answering at the last index appends the
selection and completes; and from the start of a 10-question quiz, submitting
10 answers in sequence yields "results" with an answer record of length
exactly 10, leaving the timer untouched. -/
theorem answer_progression_spec :
    (∀ (s : AppState) (o : Nat), s.step = .quiz →
      s.currentQuestionIndex < s.questions.length - 1 →
      handleAnswer s o =
        { s with answers := s.answers ++ [o]
                 currentQuestionIndex := s.currentQuestionIndex + 1 } ∧
      (handleAnswer s o).step = .quiz) ∧
    (∀ (s : AppState) (o : Nat), s.step = .quiz →
      ¬ s.currentQuestionIndex < s.questions.length - 1 →
      handleAnswer s o = { s with answers := s.answers ++ [o], step := .results }) ∧
    (∀ (s : AppState) (opts : List Nat), s.step = .quiz →
      s.questions.length = 10 → s.currentQuestionIndex = 0 → s.answers = [] →
      opts.length = 10 →
      (opts.foldl handleAnswer s).step = .results ∧
      (opts.foldl handleAnswer s).answers.length = 10 ∧
      (opts.foldl handleAnswer s).timeLeft = s.timeLeft) := by
  refine ⟨?_, ?_, ?_⟩
  · intro s o hs hbr
    constructor
    · unfold handleAnswer; rw [if_pos hbr]
    · unfold handleAnswer; rw [if_pos hbr]; exact hs
  · intro s o hs hbr
    unfold handleAnswer; rw [if_neg hbr]
  · intro s opts hs hq hc ha hopts
    have hne : opts ≠ [] := by
      intro hcon; rw [hcon] at hopts; simp at hopts
    have h := foldl_handleAnswer_completes opts s hs
      (by rw [ha, hc]; rfl) (by omega) hne
    exact ⟨h.1, by rw [h.2.1, hq], h.2.2.1⟩

/-- Witness for C6: a mid-quiz answer, a final answer, and a full run of 10
answers on the concrete 10-question session. -/
theorem answer_progression_spec_witness :
    (handleAnswer quizStart 2).step = Step.quiz ∧
    handleAnswer quizLast 0 =
      { quizLast with answers := quizLast.answers ++ [0], step := Step.results } ∧
    (demoAns6.foldl handleAnswer quizStart).step = Step.results ∧
    (demoAns6.foldl handleAnswer quizStart).answers.length = 10 ∧
    (demoAns6.foldl handleAnswer quizStart).timeLeft = quizStart.timeLeft :=
  ⟨(answer_progression_spec.1 quizStart 2 rfl (by decide)).2,
   answer_progression_spec.2.1 quizLast 0 rfl (by decide),
   (answer_progression_spec.2.2 quizStart demoAns6 rfl (by decide) rfl rfl (by decide)).1,
   (answer_progression_spec.2.2 quizStart demoAns6 rfl (by decide) rfl rfl (by decide)).2.1,
   (answer_progression_spec.2.2 quizStart demoAns6 rfl (by decide) rfl rfl (by decide)).2.2⟩

/-- C7: profile submission from Intake succeeds (moving to Generating and
clearing the error) exactly when all three fields are nonempty; with any
empty field it stays in Intake, sets the inline validation message, and
changes nothing else. -/
theorem profile_validation_spec (s : AppState) (hs : s.step = .profile) :
    ((s.profile.name ≠ "" ∧ s.profile.rank ≠ "" ∧ s.profile.vessel ≠ "") →
      handleProfileSubmit s = { s with error := none, step := .loading }) ∧
    ((s.profile.name = "" ∨ s.profile.rank = "" ∨ s.profile.vessel = "") →
      (handleProfileSubmit s).step = .profile ∧
      handleProfileSubmit s = { s with error := some "Please fill in all fields." }) := by
  constructor
  · intro h
    unfold handleProfileSubmit
    rw [if_neg]
    intro hcon
    rcases hcon with hc | hc | hc
    · exact h.1 hc
    · exact h.2.1 hc
    · exact h.2.2 hc
  · intro h
    unfold handleProfileSubmit
    rw [if_pos h]
    exact ⟨hs, rfl⟩

/-- Witness for C7: the filled profile is accepted; the initial empty profile
is rejected in place. -/
theorem profile_validation_spec_witness :
    handleProfileSubmit intakeFilled = { intakeFilled with error := none, step := .loading } ∧
    (handleProfileSubmit initState).step = Step.profile ∧
    handleProfileSubmit initState =
      { initState with error := some "Please fill in all fields." } :=
  ⟨(profile_validation_spec intakeFilled rfl).1 (by decide),
   ((profile_validation_spec initState rfl).2 (Or.inl rfl)).1,
   ((profile_validation_spec initState rfl).2 (Or.inl rfl)).2⟩

/-- C9: the timer decrements `timeLeft` by exactly one per tick only while in
"quiz"; in "quiz" at zero it forces "results", touching neither answers nor
questions (so an unanswered tail stays unanswered); in every other step it is
inert. -/
theorem timer_spec (s : AppState) :
    (s.step = .quiz → 0 < s.timeLeft →
      timerEffect s = { s with timeLeft := s.timeLeft - 1 } ∧
      (timerEffect s).timeLeft + 1 = s.timeLeft) ∧
    (s.step = .quiz → s.timeLeft = 0 →
      (timerEffect s).step = .results ∧
      (timerEffect s).answers = s.answers ∧
      (timerEffect s).questions = s.questions ∧
      (s.answers.length < s.questions.length →
        (timerEffect s).answers.length < (timerEffect s).questions.length)) ∧
    (s.step ≠ .quiz → timerEffect s = s) := by
  refine ⟨?_, ?_, ?_⟩
  · intro hq ht
    unfold timerEffect
    rw [if_pos ⟨hq, ht⟩]
    exact ⟨rfl, by dsimp only; omega⟩
  · intro hq ht
    unfold timerEffect
    rw [if_neg (by simp [ht]), if_pos ⟨hq, ht⟩]
    exact ⟨rfl, rfl, rfl, fun h => h⟩
  · intro hq
    unfold timerEffect
    rw [if_neg (fun h => hq h.1), if_neg (fun h => hq h.1)]

/-- Witness for C9: a live tick, an expiry with a short answer record, and an
inert tick in Intake. -/
theorem timer_spec_witness :
    timerEffect quizStart = { quizStart with timeLeft := quizStart.timeLeft - 1 } ∧
    (timerEffect quizExpired).step = Step.results ∧
    (timerEffect quizExpired).answers.length < (timerEffect quizExpired).questions.length ∧
    timerEffect initState = initState :=
  ⟨((timer_spec quizStart).1 rfl (by decide)).1,
   ((timer_spec quizExpired).2.1 rfl rfl).1,
   ((timer_spec quizExpired).2.1 rfl rfl).2.2.2 (by decide),
   (timer_spec initState).2.2 (by decide)⟩

/-- C8: in every reachable session, the answer record stays in lockstep with
the current question index while InProgress (one answer per question, in
order, no gaps), the current index never exceeds the question count, and the
answer record is never longer than the question set (so the only possible
gap is a trailing one left by expiry).  Preservation by every operation is
the content of `sessionInv_preserved`. -/
theorem session_invariant_spec (s : AppState) (h : Reachable s) :
    (s.step = .quiz → s.answers.length = s.currentQuestionIndex) ∧
    s.currentQuestionIndex ≤ s.questions.length ∧
    s.answers.length ≤ s.questions.length := by
  obtain ⟨h1, h2, h3, _⟩ := sessionInv_reachable h
  exact ⟨fun hq => (h3 hq).1, h1, h2⟩

/-- Witness for C8 at the (reachable) initial session. -/
theorem session_invariant_spec_witness :
    (initState.step = Step.quiz → initState.answers.length = initState.currentQuestionIndex) ∧
    initState.currentQuestionIndex ≤ initState.questions.length ∧
    initState.answers.length ≤ initState.questions.length :=
  session_invariant_spec initState Reachable.init

/-! ### Reachability of concrete sessions -/

/-- A Generating session with a filled profile. -/
def loadingFilled : AppState :=
  { step := .loading
    profile := ⟨"John Doe", "Chief Officer", "MV Pacific Star"⟩
    questions := []
    currentQuestionIndex := 0
    answers := []
    error := none
    timeLeft := 600 }

theorem reachable_intakeFilled : Reachable intakeFilled := by
  have h := AppStep.editProfile initState
    ⟨"John Doe", "Chief Officer", "MV Pacific Star"⟩ rfl
  have he : ({ initState with
      profile := ⟨"John Doe", "Chief Officer", "MV Pacific Star"⟩ } : AppState) =
      intakeFilled := rfl
  exact he ▸ Reachable.next Reachable.init h

theorem reachable_loadingFilled : Reachable loadingFilled := by
  have h := AppStep.submitProfile intakeFilled rfl
  have he : handleProfileSubmit intakeFilled = loadingFilled := by decide
  exact he ▸ Reachable.next reachable_intakeFilled h

/-- Ticking an InProgress session down to zero stays within the reachable
sessions. -/
theorem reachable_drain : ∀ (n : Nat) (s : AppState), Reachable s → s.step = .quiz →
    s.timeLeft = n → Reachable { s with timeLeft := 0 } := by
  intro n
  induction n with
  | zero =>
      intro s hr hq ht
      have he : ({ s with timeLeft := 0 } : AppState) = s := by
        cases s
        simp_all
      rw [he]
      exact hr
  | succ n ih =>
      intro s hr hq ht
      have hstep : timerEffect s = { s with timeLeft := s.timeLeft - 1 } := by
        unfold timerEffect
        rw [if_pos ⟨hq, by omega⟩]
      have hr2 : Reachable { s with timeLeft := s.timeLeft - 1 } := by
        rw [← hstep]
        exact Reachable.next hr (AppStep.timer s)
      exact ih { s with timeLeft := s.timeLeft - 1 } hr2 hq (by dsimp only; omega)

/-! ### C2: generation-response handling -/

/-- A single malformed question: 2 options instead of 4, correct index 7. -/
def malformedQuestions : List QuizQuestion :=
  [⟨"Sole malformed question", ["Only", "two options"], 7, "No explanation"⟩]

/-- C2 counterexample: from a reachable Generating session, the generation
handler installs a parsed response of one malformed question (2 options,
correct index 7) and still transitions to InProgress — no length or shape
validation occurs. -/
theorem generation_no_validation_cex :
    Reachable loadingFilled ∧
    loadingFilled.step = Step.loading ∧
    (applyGenSuccess loadingFilled malformedQuestions).step = Step.quiz ∧
    (applyGenSuccess loadingFilled malformedQuestions).questions = malformedQuestions ∧
    malformedQuestions.length ≠ 10 ∧
    (malformedQuestions.headD default).options.length ≠ 4 ∧
    ¬ (malformedQuestions.headD default).correctAnswerIndex ≤ 3 :=
  ⟨reachable_loadingFilled, rfl, rfl, rfl, by decide, by decide, by decide⟩

/-- C2 (amended): Generating transitions to InProgress on any successfully
parsed response text, installing the parsed array unvalidated (any length or
shape) as the question set and resetting remainingSeconds to 600; the
current index and answers are already empty in every reachable Generating
session (the handler does not reset the index itself).  A missing response
text or a parse error reverts to Intake with a user-visible error message,
with no partial data installed. -/
theorem generation_spec (s : AppState) (qs : List QuizQuestion) (h : Reachable s)
    (hs : s.step = .loading) :
    s.currentQuestionIndex = 0 ∧
    s.answers = [] ∧
    (applyGenSuccess s qs).step = .quiz ∧
    (applyGenSuccess s qs).questions = qs ∧
    (applyGenSuccess s qs).timeLeft = 600 ∧
    (applyGenSuccess s qs).currentQuestionIndex = 0 ∧
    (applyGenSuccess s qs).answers = [] ∧
    (applyGenFailure s).step = .profile ∧
    (applyGenFailure s).error =
      some "Failed to generate quiz. Please try again or check your connection." ∧
    (applyGenFailure s).questions = [] ∧
    (applyGenFailure s).answers = [] := by
  obtain ⟨_, _, _, h4⟩ := sessionInv_reachable h
  obtain ⟨ha, hc, hq⟩ := h4 (Or.inr hs)
  exact ⟨hc, ha, rfl, rfl, rfl, hc, ha, rfl, rfl, hq, ha⟩

/-- Witness for C2 (amended) at the concrete reachable Generating session. -/
theorem generation_spec_witness :
    (applyGenSuccess loadingFilled []).step = Step.quiz ∧
    (applyGenSuccess loadingFilled []).timeLeft = 600 ∧
    (applyGenSuccess loadingFilled []).currentQuestionIndex = 0 ∧
    (applyGenFailure loadingFilled).step = Step.profile :=
  ⟨(generation_spec loadingFilled [] reachable_loadingFilled rfl).2.2.1,
   (generation_spec loadingFilled [] reachable_loadingFilled rfl).2.2.2.2.1,
   (generation_spec loadingFilled [] reachable_loadingFilled rfl).2.2.2.2.2.1,
   (generation_spec loadingFilled [] reachable_loadingFilled rfl).2.2.2.2.2.2.2.1⟩

/-! ### C3: the per-question review blocks of the report -/

/-- JS indexing `options[i]` for a Nat index: out of range gives the string
interpolation of `undefined`. -/
def optionTextAt (options : List String) (i : Nat) : String :=
  options.getD i "undefined"

/-- JS indexing `options[i]` for the (unvalidated, possibly negative)
`correctAnswerIndex`. -/
def optionTextAtInt (options : List String) (i : Int) : String :=
  if 0 ≤ i then options.getD i.toNat "undefined" else "undefined"

/-- The text drawn for one question's review in `generatePDF` (lines
217-261): question header, verdict line, the "Your Answer" line — emitted
only inside `if (!isCorrect)` — the correct-answer line, and the note. -/
structure ReviewBlock where
  header : String
  verdict : String
  yourAnswerLine : Option String
  correctAnswerLine : String
  noteLine : String
deriving DecidableEq, Repr

/-- The review block for question `q` at position `i` with recorded answer
`a`, assembled exactly as the loop body of `generatePDF` draws it. -/
def reviewBlock (i : Nat) (q : QuizQuestion) (a : Option Nat) : ReviewBlock :=
  let isCorrect := isHit q a
  let userAnswer :=
    match a with
    | some v => optionTextAt q.options v
    | none => "No Answer (Time expired)"
  { header := "Q" ++ toString (i + 1) ++ ": " ++ q.question
    verdict := if isCorrect then "Result: CORRECT" else "Result: INCORRECT"
    yourAnswerLine := if isCorrect then none else some ("Your Answer: " ++ userAnswer)
    correctAnswerLine := "Correct Answer: " ++ optionTextAtInt q.options q.correctAnswerIndex
    noteLine := "Note: " ++ q.explanation }

/-- The `questions.forEach((q, i) => ...)` review section: one block per
question, in original order, looking the answer up at the question's index. -/
def reviewBlocks (questions : List QuizQuestion) (answers : List Nat) : List ReviewBlock :=
  questions.enum.map fun p => reviewBlock p.1 p.2 (answers.get? p.1)

/-- C3 counterexample: for a correctly answered question the review block
carries no user-answer element at all (the code draws "Your Answer" only
under `if (!isCorrect)`), so the block does not always contain the user's
selected option text; also, the unanswered marker reads "No Answer (Time
expired)", not "No Answer (time expired)". -/
theorem review_block_cex :
    (reviewBlock 0 demoQuestion (some 1)).verdict = "Result: CORRECT" ∧
    (reviewBlock 0 demoQuestion (some 1)).yourAnswerLine = none ∧
    (reviewBlock 0 demoQuestion none).yourAnswerLine =
      some "Your Answer: No Answer (Time expired)" ∧
    "No Answer (Time expired)" ≠ "No Answer (time expired)" := by
  decide

/-- C3 (amended): for every question, in original order, the report's review
block contains the question text, a CORRECT/INCORRECT verdict (INCORRECT
when unanswered), the correct option text and the explanation text; the
user's selected option text — or the marker "No Answer (Time expired)" when
no answer exists — appears as a "Your Answer" line only when the verdict is
INCORRECT, and is absent when the verdict is CORRECT. -/
theorem review_blocks_spec (qs : List QuizQuestion) (ans : List Nat) (i : Nat)
    (q : QuizQuestion) (h : qs.get? i = some q) :
    (reviewBlocks qs ans).get? i = some (reviewBlock i q (ans.get? i)) ∧
    (reviewBlock i q (ans.get? i)).header = "Q" ++ toString (i + 1) ++ ": " ++ q.question ∧
    (reviewBlock i q (ans.get? i)).noteLine = "Note: " ++ q.explanation ∧
    (reviewBlock i q (ans.get? i)).correctAnswerLine =
      "Correct Answer: " ++ optionTextAtInt q.options q.correctAnswerIndex ∧
    ((reviewBlock i q (ans.get? i)).verdict = "Result: CORRECT" ↔
      isHit q (ans.get? i) = true) ∧
    (ans.get? i = none → (reviewBlock i q (ans.get? i)).verdict = "Result: INCORRECT") ∧
    ((reviewBlock i q (ans.get? i)).yourAnswerLine = none ↔
      isHit q (ans.get? i) = true) ∧
    (ans.get? i = none →
      (reviewBlock i q (ans.get? i)).yourAnswerLine =
        some "Your Answer: No Answer (Time expired)") ∧
    (∀ v : Nat, ans.get? i = some v → isHit q (ans.get? i) = false →
      (reviewBlock i q (ans.get? i)).yourAnswerLine =
        some ("Your Answer: " ++ optionTextAt q.options v)) := by
  have hverdict : ∀ a : Option Nat, (reviewBlock i q a).verdict =
      if isHit q a then "Result: CORRECT" else "Result: INCORRECT" := fun _ => rfl
  have hyour : ∀ a : Option Nat, (reviewBlock i q a).yourAnswerLine =
      if isHit q a then none
      else some ("Your Answer: " ++
        match a with
        | some v => optionTextAt q.options v
        | none => "No Answer (Time expired)") := fun _ => rfl
  refine ⟨?_, rfl, rfl, rfl, ?_, ?_, ?_, ?_, ?_⟩
  · unfold reviewBlocks
    rw [List.get?_eq_getElem?, List.getElem?_map, List.getElem?_enum,
      ← List.get?_eq_getElem?, h]
    rfl
  · rw [hverdict]
    cases hcor : isHit q (ans.get? i) <;> simp [hcor]
  · intro hnone
    rw [hverdict, hnone]
    rfl
  · rw [hyour]
    cases hcor : isHit q (ans.get? i) <;> simp [hcor]
  · intro hnone
    rw [hyour, hnone]
    rfl
  · intro v hv hcor
    rw [hyour, hv]
    rw [hv] at hcor
    simp [hcor]

/-- Witness for C3 (amended) at the concrete question set with a correct
answer recorded at index 0. -/
theorem review_blocks_spec_witness :
    (reviewBlocks demoQs demoAns6).get? 0 =
      some (reviewBlock 0 demoQuestion (demoAns6.get? 0)) ∧
    (reviewBlock 0 demoQuestion (demoAns6.get? 0)).yourAnswerLine = none :=
  ⟨(review_blocks_spec demoQs demoAns6 0 demoQuestion (by decide)).1,
   (review_blocks_spec demoQs demoAns6 0 demoQuestion (by decide)).2.2.2.2.2.2.1.mpr
     (by decide)⟩

/-! ### C10: the report's percentage on an empty question set -/

/-- The value lattice of a JS floating-point computation as far as the
percentage formula needs it: NaN, Infinity, or a finite (rational) number. -/
inductive JSVal where
  | nan
  | inf
  | num (val : ℚ)
deriving DecidableEq, Repr

/-- JS division: `0/0` is NaN, `x/0` for `x ≠ 0` is Infinity. -/
def jsDiv (a b : ℚ) : JSVal :=
  if b = 0 then (if a = 0 then .nan else .inf) else .num (a / b)

/-- Multiplication by a finite constant propagates NaN and Infinity. -/
def jsMulNum (v : JSVal) (c : ℚ) : JSVal :=
  match v with
  | .nan => .nan
  | .inf => .inf
  | .num q => .num (q * c)

/-- `Math.round`: half-up rounding on finite values, identity on NaN and
Infinity. -/
def jsRound (v : JSVal) : JSVal :=
  match v with
  | .nan => .nan
  | .inf => .inf
  | .num q => .num ((⌊q + 1 / 2⌋ : ℤ) : ℚ)

/-- The score-block percentage `Math.round((score/total)*100)` of
`generatePDF` (line 203), with no guard on `total`. -/
def pdfPercentage (questions : List QuizQuestion) (answers : List Nat) : JSVal :=
  jsRound (jsMulNum
    (jsDiv (calculateScore questions answers : ℚ) (totalCount questions : ℚ)) 100)

/-- The InProgress session produced by installing an empty parsed array. -/
def quizEmptyStart : AppState :=
  { step := .quiz
    profile := ⟨"John Doe", "Chief Officer", "MV Pacific Star"⟩
    questions := []
    currentQuestionIndex := 0
    answers := []
    error := none
    timeLeft := 600 }

/-- The Completed session the timer forces once the empty-question quiz runs
out of time. -/
def emptyQuizDone : AppState :=
  { step := .results
    profile := ⟨"John Doe", "Chief Officer", "MV Pacific Star"⟩
    questions := []
    currentQuestionIndex := 0
    answers := []
    error := none
    timeLeft := 0 }

theorem reachable_emptyQuizDone : Reachable emptyQuizDone := by
  have h1 : Reachable quizEmptyStart := by
    have h := AppStep.genSuccess loadingFilled [] rfl
    have he : applyGenSuccess loadingFilled [] = quizEmptyStart := rfl
    exact he ▸ Reachable.next reachable_loadingFilled h
  have h2 : Reachable { quizEmptyStart with timeLeft := 0 } :=
    reachable_drain 600 quizEmptyStart h1 rfl rfl
  have h3 : timerEffect { quizEmptyStart with timeLeft := 0 } = emptyQuizDone := by
    unfold timerEffect
    rw [if_neg (by simp), if_pos ⟨rfl, rfl⟩]
    rfl
  exact h3 ▸ Reachable.next h2 (AppStep.timer _)

/-- C10: the report's percentage is `round((score/total)*100)` with no guard
for `total = 0` (on the sample inputs it yields the expected 60); the
generation handler installs even an empty parsed array, timer expiry then
completes that session, so a Completed session with an empty question set is
reachable, and there the percentage's `0/0` produces NaN — a non-numeric
value — rather than a defined percentage. -/
theorem empty_question_set_nan_percentage :
    pdfPercentage demoQs demoAns6 = JSVal.num 60 ∧
    Reachable emptyQuizDone ∧
    emptyQuizDone.step = Step.results ∧
    emptyQuizDone.questions = [] ∧
    totalCount emptyQuizDone.questions = 0 ∧
    pdfPercentage emptyQuizDone.questions emptyQuizDone.answers = JSVal.nan := by
  refine ⟨?_, reachable_emptyQuizDone, rfl, rfl, rfl, ?_⟩
  · have hscore : calculateScore demoQs demoAns6 = 6 := by decide
    have htotal : totalCount demoQs = 10 := by decide
    unfold pdfPercentage
    rw [hscore, htotal]
    unfold jsDiv
    rw [if_neg (by norm_num)]
    unfold jsMulNum jsRound
    norm_num
  · have hscore : calculateScore ([] : List QuizQuestion) ([] : List Nat) = 0 := rfl
    have htotal : totalCount ([] : List QuizQuestion) = 0 := rfl
    show pdfPercentage [] [] = JSVal.nan
    unfold pdfPercentage
    rw [hscore, htotal]
    unfold jsDiv
    rw [if_pos (by norm_num), if_pos (by norm_num)]
    rfl

end ColregQuiz
